import Mathlib

/-
Verification development for the order-creation / stock-consistency workflow
of the Salman4M/microservices repository.

The relevant Python functions are shallowly embedded as executable Lean
definitions:
  * `handle_order_created` / `callback` — product-service
    `src/app/messaging.py`, the stock-reconciliation consumer;
  * `verify_product_exists` / `sync_cart_stock` — shopcart-service
    `src/shopcart_service/tasks.py`, the periodic cart-sync job;
  * `create_order_from_shopcart` and `update_order_item_status` —
    order-service `orders/views/views_v1.py`, the order-creation saga and
    the order-item status workflow.

Remote services, serializers and the broker are modelled as oracle
functions in an environment record; database tables are explicit lists;
Python dictionary access with defaults becomes `Option` with `getD`, and
Python truthiness of optional strings becomes `strTruthy`.
-/

set_option autoImplicit false

namespace Micro

/-- Python truthiness for an optional string: `None` and the empty string
are falsy, every other string is kept. -/
def strTruthy : Option String → Option String
  | none => none
  | some s => if s = "" then none else some s

/-! ## Product service: stock-reconciliation consumer (`messaging.py`) -/

/-- A `ProductVariation` row as touched by the consumer: its id and its
stock counter.  `amount` is an integer column, so it is modelled as `Int`
(negative values are representable, and only the guard in the handler
prevents them). -/
structure VariationRow where
  id : String
  amount : Int
  deriving Repr, DecidableEq

/-- One line of the `order.created` payload: `item.get('product_variation_id')`
and `item.get('quantity', 0)`. -/
structure OrderLine where
  product_variation_id : Option String
  quantity : Option Int
  deriving Repr, DecidableEq

/-- First `ProductVariation` row matching `vid` (the `.filter(...).first()`
query): decrement its amount by `qty` unless `amount < qty`, in which case
the row is left untouched (the handler logs and skips the line). -/
def decrementFirst (vid : String) (qty : Int) : List VariationRow → List VariationRow
  | [] => []
  | v :: rest =>
    if v.id = vid then
      if v.amount < qty then v :: rest
      else { v with amount := v.amount - qty } :: rest
    else v :: decrementFirst vid qty rest

/-- One iteration of the item loop in `RabbitMQConsumer.handle_order_created`:
skip the line when the variation id is falsy or the quantity is not
positive, otherwise decrement the first matching variation row (guarded). -/
def consumeLine (inv : List VariationRow) (line : OrderLine) : List VariationRow :=
  match strTruthy line.product_variation_id with
  | none => inv
  | some vid =>
    let qty := line.quantity.getD 0
    if qty ≤ 0 then inv
    else decrementFirst vid qty inv

/-- The inventory effect of `RabbitMQConsumer.handle_order_created` on an
`order.created` message: the item loop folded over the variation table.
In the embedding the handler cannot raise, so it always reports success
(`True` in the Python source), including on partial progress. -/
def handle_order_created (inv : List VariationRow) (items : List OrderLine) : List VariationRow :=
  items.foldl consumeLine inv

/-- Outcome of the broker callback for one delivery. -/
inductive AckAction where
  | ack
  | nackNoRequeue
  deriving Repr, DecidableEq

/-- An incoming message body: either malformed JSON, or a decoded object
with its `event_type` field, its legacy `event` field and the
`data.items` payload. -/
inductive Body where
  | malformed
  | msg (event_type : Option String) (event : Option String) (items : List OrderLine)

/-- The event type the callback routes on:
`message.get('event_type') or message.get('event')` with Python `or`
falling through on falsy values. -/
def eventTypeOf (et ev : Option String) : Option String :=
  match strTruthy et with
  | some s => some s
  | none => ev

/-- `RabbitMQConsumer.callback`: malformed JSON is nacked without requeue;
`order.created` messages run the handler and are acked (the pure handler
always succeeds); every other event type is acked unprocessed (the source
comment reads `Ack unknown events`). -/
def callback (inv : List VariationRow) (body : Body) : AckAction × List VariationRow :=
  match body with
  | .malformed => (.nackNoRequeue, inv)
  | .msg et ev items =>
    if eventTypeOf et ev = some "order.created" then
      (.ack, handle_order_created inv items)
    else
      (.ack, inv)

lemma decrementFirst_nonneg (vid : String) (qty : Int) (inv : List VariationRow)
    (h : ∀ v ∈ inv, 0 ≤ v.amount) :
    ∀ v ∈ decrementFirst vid qty inv, 0 ≤ v.amount := by
  induction inv with
  | nil => simp [decrementFirst]
  | cons hd tl ih =>
    intro v hv
    have hhd : 0 ≤ hd.amount := h hd (List.mem_cons_self _ _)
    have htl : ∀ w ∈ tl, 0 ≤ w.amount := fun w hw => h w (List.mem_cons_of_mem _ hw)
    by_cases hid : hd.id = vid
    · by_cases hlt : hd.amount < qty
      · simp only [decrementFirst, hid, if_pos rfl, if_pos hlt] at hv
        rcases List.mem_cons.mp hv with h1 | h2
        · simpa [h1] using hhd
        · exact htl v h2
      · simp only [decrementFirst, hid, if_pos rfl, if_neg hlt] at hv
        rcases List.mem_cons.mp hv with h1 | h2
        · have : qty ≤ hd.amount := le_of_not_lt hlt
          simp [h1]
          omega
        · exact htl v h2
    · simp only [decrementFirst, hid, if_neg hid] at hv
      rcases List.mem_cons.mp hv with h1 | h2
      · simpa [h1] using hhd
      · exact ih htl v h2

lemma consumeLine_nonneg (inv : List VariationRow) (line : OrderLine)
    (h : ∀ v ∈ inv, 0 ≤ v.amount) :
    ∀ v ∈ consumeLine inv line, 0 ≤ v.amount := by
  unfold consumeLine
  cases strTruthy line.product_variation_id with
  | none => exact h
  | some vid =>
    by_cases hq : line.quantity.getD 0 ≤ 0
    · simpa [hq] using h
    · simpa [hq] using decrementFirst_nonneg vid (line.quantity.getD 0) inv h

/-- C2: for every completed run of the stock-reconciliation handler on an
`order.created` message, no variation's amount becomes negative: a line's
quantity is subtracted only when the current amount is at least that
quantity, and lines failing the check are skipped. -/
theorem C2_stock_never_negative (inv : List VariationRow) (items : List OrderLine)
    (h : ∀ v ∈ inv, 0 ≤ v.amount) :
    ∀ v ∈ handle_order_created inv items, 0 ≤ v.amount := by
  unfold handle_order_created
  induction items generalizing inv with
  | nil => simpa using h
  | cons hd tl ih =>
    simpa [List.foldl_cons] using ih (consumeLine inv hd) (consumeLine_nonneg inv hd h)

/-- C2 witness: a concrete inventory and message where the invariant holds at
a concrete run (stock 5, lines requesting 3 and then 4: the second line is
skipped). -/
theorem C2_stock_never_negative_witness :
    (∀ v ∈ [VariationRow.mk "a" 5], 0 ≤ v.amount) ∧
      ∀ v ∈ handle_order_created [VariationRow.mk "a" 5]
        [OrderLine.mk (some "a") (some 3), OrderLine.mk (some "a") (some 4)], 0 ≤ v.amount :=
  ⟨by decide, C2_stock_never_negative _ _ (by decide)⟩

/-- C3 counterexample: a decoded message whose event type is not routable
(`order.deleted`) is NOT nacked — the callback acks it (`Ack unknown
events` in the source), refuting the claim that unroutable event types are
dead-lettered. -/
theorem C3_counterexample :
    (callback [] (Body.msg (some "order.deleted") none [])).1 ≠ AckAction.nackNoRequeue := by
  decide

/-- C3 (amended): the consumer nacks without requeue malformed-JSON
messages, acks messages whose event type is not routable to a handler, and
acks `order.created` messages on successful (including partial)
processing. -/
theorem C3_ack_policy (inv : List VariationRow) (et ev : Option String)
    (items : List OrderLine) (h : eventTypeOf et ev ≠ some "order.created") :
    (callback inv Body.malformed).1 = AckAction.nackNoRequeue ∧
      (callback inv (Body.msg et ev items)).1 = AckAction.ack ∧
      (callback inv (Body.msg (some "order.created") none items)).1 = AckAction.ack := by
  refine ⟨rfl, ?_, ?_⟩
  · simp [callback, h]
  · simp [callback, eventTypeOf, strTruthy]

/-- C3 witness: the amended acknowledgment policy at a concrete inventory,
a concrete unroutable message and a concrete `order.created` message. -/
theorem C3_ack_policy_witness :
    (callback [VariationRow.mk "a" 5] Body.malformed).1 = AckAction.nackNoRequeue ∧
      (callback [VariationRow.mk "a" 5]
        (Body.msg (some "user.created") none [])).1 = AckAction.ack ∧
      (callback [VariationRow.mk "a" 5]
        (Body.msg (some "order.created") none
          [OrderLine.mk (some "a") (some 2)])).1 = AckAction.ack :=
  C3_ack_policy _ _ _ _ (by decide)

/-! ## Shopcart service: periodic cart-sync job (`tasks.py`) -/

/-- Outcome of the HTTP GET performed by `verify_product_exists`: a
response with a status code and the fields the function reads from the
JSON body (`amount`, `product.is_active`, each possibly absent), a
timeout, or another request exception. -/
inductive HttpResp where
  | ok (statusCode : Nat) (amount : Option Nat) (is_active : Option Bool)
  | timeout
  | connError
  deriving Repr, DecidableEq

/-- What `verify_product_exists` reports back to the sweep. -/
structure ProductInfo where
  amount : Nat
  is_active : Bool
  deriving Repr, DecidableEq

/-- `verify_product_exists`: `None` on a 404, on any non-200 status, on a
timeout and on any other request error; otherwise the body's `amount`
(default 0) and `product.is_active` (default `True`). -/
def verify_product_exists (resp : HttpResp) : Option ProductInfo :=
  match resp with
  | .ok statusCode amount is_active =>
    if statusCode = 404 then none
    else if statusCode ≠ 200 then none
    else some ⟨amount.getD 0, is_active.getD true⟩
  | .timeout => none
  | .connError => none

/-- A `CartItem` row as seen by the sweep. -/
structure CartItem where
  id : Nat
  shop_cart_id : Nat
  product_variation_id : String
  quantity : Nat
  deriving Repr, DecidableEq

/-- The per-item decision of `sync_cart_stock`: delete when the product
data is unavailable, inactive or out of stock; clamp the quantity when
stock is positive but below the cart quantity; otherwise no change. -/
inductive ItemAction where
  | deleted
  | updated (newQuantity : Nat)
  | unchanged
  deriving Repr, DecidableEq

/-- Case analysis of one loop iteration of `sync_cart_stock` over the
fetched product data. -/
def syncAction (pdata : Option ProductInfo) (item : CartItem) : ItemAction :=
  match pdata with
  | none => .deleted
  | some p =>
    if ¬ p.is_active then .deleted
    else if p.amount = 0 then .deleted
    else if p.amount < item.quantity then .updated p.amount
    else .unchanged

/-- Aggregate counts reported by `sync_cart_stock`. -/
structure SyncCounts where
  total : Nat
  updated : Nat
  deleted : Nat
  unchanged : Nat
  errors : Nat
  deriving Repr, DecidableEq

/-- `sync_cart_stock` over the cart-item table, given the product
service's HTTP behaviour per variation id: returns the table after the
single commit of the pass together with the reported counts.  In the pure
embedding the per-item `try`/`except` cannot fire, so `errors` stays 0. -/
def sync_cart_stock (http : String → HttpResp) : List CartItem → List CartItem × SyncCounts
  | [] => ([], ⟨0, 0, 0, 0, 0⟩)
  | item :: rest =>
    let r := sync_cart_stock http rest
    match syncAction (verify_product_exists (http item.product_variation_id)) item with
    | .deleted =>
      (r.1, ⟨r.2.total + 1, r.2.updated, r.2.deleted + 1, r.2.unchanged, r.2.errors⟩)
    | .updated q =>
      ({ item with quantity := q } :: r.1,
        ⟨r.2.total + 1, r.2.updated + 1, r.2.deleted, r.2.unchanged, r.2.errors⟩)
    | .unchanged =>
      (item :: r.1, ⟨r.2.total + 1, r.2.updated, r.2.deleted, r.2.unchanged + 1, r.2.errors⟩)

lemma syncAction_of_survivor (http : String → HttpResp) (items : List CartItem) :
    ∀ item ∈ (sync_cart_stock http items).1,
      syncAction (verify_product_exists (http item.product_variation_id)) item = .unchanged := by
  induction items with
  | nil => intro item h; simp [sync_cart_stock] at h
  | cons hd tl ih =>
    intro item h
    simp only [sync_cart_stock] at h
    rcases ha : syncAction (verify_product_exists (http hd.product_variation_id)) hd with
      _ | q | _
    · rw [ha] at h
      exact ih item h
    · rw [ha] at h
      rcases List.mem_cons.mp h with h1 | h2
      · subst h1
        unfold syncAction at ha ⊢
        cases hp : verify_product_exists (http hd.product_variation_id) with
        | none => rw [hp] at ha; exact absurd ha (by simp)
        | some p =>
          rw [hp] at ha
          simp only at ha ⊢
          by_cases hact : p.is_active
          · by_cases hz : p.amount = 0
            · simp [hact, hz] at ha
            · by_cases hlt : p.amount < hd.quantity
              · simp only [hact, hz, hlt, if_true, if_false, not_true, if_neg] at ha
                have hq : q = p.amount := by
                  simp [hact, hz, hlt] at ha
                  omega
                subst hq
                simp [hact, hz]
              · simp [hact, hz, hlt] at ha
          · simp [hact] at ha
      · exact ih item h2
    · rw [ha] at h
      rcases List.mem_cons.mp h with h1 | h2
      · subst h1; exact ha
      · exact ih item h2

lemma sync_cart_stock_of_unchanged (http : String → HttpResp) (items : List CartItem)
    (h : ∀ item ∈ items,
      syncAction (verify_product_exists (http item.product_variation_id)) item = .unchanged) :
    sync_cart_stock http items = (items, ⟨items.length, 0, 0, items.length, 0⟩) := by
  induction items with
  | nil => rfl
  | cons hd tl ih =>
    have hhd := h hd (List.mem_cons_self _ _)
    have htl := ih fun item hi => h item (List.mem_cons_of_mem _ hi)
    simp [sync_cart_stock, hhd, htl, List.length_cons]

/-- C4: the cart-sync job is idempotent — with the product service
answering identically, a second run on the state left by the first run
reports zero updated and zero deleted items (every survivor counts as
unchanged) and leaves the table exactly as the first run left it. -/
theorem C4_sync_idempotent (http : String → HttpResp) (items : List CartItem) :
    (sync_cart_stock http (sync_cart_stock http items).1).2.updated = 0 ∧
      (sync_cart_stock http (sync_cart_stock http items).1).2.deleted = 0 ∧
      (sync_cart_stock http (sync_cart_stock http items).1).2.unchanged =
        (sync_cart_stock http (sync_cart_stock http items).1).2.total ∧
      (sync_cart_stock http (sync_cart_stock http items).1).1 =
        (sync_cart_stock http items).1 := by
  have h := sync_cart_stock_of_unchanged http (sync_cart_stock http items).1
    (syncAction_of_survivor http items)
  rw [h]
  exact ⟨rfl, rfl, rfl, rfl⟩

/-- C8 counterexample: for a cart item whose inventory fetch times out
(`verify_product_exists` catches `requests.exceptions.Timeout` and returns
`None`), the sweep does NOT leave the item unchanged — it falls into the
`Product not found or service unavailable` branch and deletes it. -/
theorem C8_counterexample :
    (sync_cart_stock (fun _ => HttpResp.timeout) [CartItem.mk 1 1 "v1" 2]).1 ≠
      [CartItem.mk 1 1 "v1" 2] := by
  decide

/-- C8 (amended): when the inventory fetch for a cart item times out, the
sweep deletes that cart item (counting it as deleted) and proceeds to the
remaining items unaffected. -/
theorem C8_timeout_deletes (http : String → HttpResp) (item : CartItem)
    (rest : List CartItem) (h : http item.product_variation_id = HttpResp.timeout) :
    sync_cart_stock http (item :: rest) =
      ((sync_cart_stock http rest).1,
        ⟨(sync_cart_stock http rest).2.total + 1, (sync_cart_stock http rest).2.updated,
          (sync_cart_stock http rest).2.deleted + 1, (sync_cart_stock http rest).2.unchanged,
          (sync_cart_stock http rest).2.errors⟩) := by
  simp [sync_cart_stock, h, verify_product_exists, syncAction]

/-- C8 witness: the amended behaviour at a concrete two-item cart whose
first fetch times out. -/
theorem C8_timeout_deletes_witness :
    sync_cart_stock (fun _ => HttpResp.timeout)
        [CartItem.mk 1 1 "v1" 2, CartItem.mk 2 1 "v2" 3] =
      ((sync_cart_stock (fun _ => HttpResp.timeout) [CartItem.mk 2 1 "v2" 3]).1,
        ⟨(sync_cart_stock (fun _ => HttpResp.timeout) [CartItem.mk 2 1 "v2" 3]).2.total + 1,
          (sync_cart_stock (fun _ => HttpResp.timeout) [CartItem.mk 2 1 "v2" 3]).2.updated,
          (sync_cart_stock (fun _ => HttpResp.timeout) [CartItem.mk 2 1 "v2" 3]).2.deleted + 1,
          (sync_cart_stock (fun _ => HttpResp.timeout) [CartItem.mk 2 1 "v2" 3]).2.unchanged,
          (sync_cart_stock (fun _ => HttpResp.timeout) [CartItem.mk 2 1 "v2" 3]).2.errors⟩) :=
  C8_timeout_deletes _ _ _ rfl

/-! ## Order service: order-creation saga (`views_v1.py`, `create_order_from_shopcart`) -/

/-- Fields of the product-service variation payload read by the saga:
`variation_data.get("product_id")` and `variation_data.get('amount', 0)`. -/
structure VariationData where
  product_id : Option String
  amount : Option Nat
  deriving Repr, DecidableEq

/-- Fields of the product payload read by the saga: `shop_id`,
`is_active` (default `True`) and `title` (default `'Unknown'`). -/
structure ProductData where
  shop_id : Option String
  is_active : Option Bool
  title : Option String
  deriving Repr, DecidableEq

/-- One line of the fetched shopcart payload: `item.get('id')`,
`item.get('product_variation_id')` and `item.get('quantity', 1)`. -/
structure CartLine where
  id : Option Nat
  product_variation_id : Option String
  quantity : Option Nat
  deriving Repr, DecidableEq

/-- The shopcart payload: `shopcart_data.get('id')` and its `items`. -/
structure Shopcart where
  id : Option Nat
  items : List CartLine
  deriving Repr, DecidableEq

/-- The `issue` strings recorded in `stock_issues`. -/
inductive IssueKind where
  | not_found
  | invalid_data
  | product_not_found
  | inactive
  | invalid_shop
  | out_of_stock
  | insufficient_stock
  deriving Repr, DecidableEq

/-- The `action` strings recorded in `stock_issues`: delete the cart item
or clamp its quantity. -/
inductive FixAction where
  | remove
  | update
  deriving Repr, DecidableEq

/-- One entry of the `stock_issues` list; fields absent from a given
issue dictionary are `none`. -/
structure StockIssue where
  cart_item_id : Option Nat
  product_variation_id : String
  product_title : Option String
  requested_quantity : Option Nat
  available_stock : Option Nat
  issue : IssueKind
  action : FixAction
  deriving Repr, DecidableEq

/-- One entry of the `validated_items` list. -/
structure ValidatedItem where
  variation_id : String
  product_id : String
  shop_id : String
  quantity : Nat
  available_stock : Nat
  deriving Repr, DecidableEq

/-- The `order_item_data` dictionary passed to `OrderItemSerializer`. -/
structure OrderItemData where
  order : Nat
  product_variation : String
  product_id : String
  shop_id : String
  quantity : Nat
  status : Nat
  price : Nat
  deriving Repr, DecidableEq

/-- One entry of `event_items` in the published `order.created` payload. -/
structure EventItem where
  product_variation_id : String
  quantity : Nat
  deriving Repr, DecidableEq

/-- One entry of the `fixed_items` list returned in the 409 body. -/
structure FixedItem where
  product_variation_id : String
  product_title : Option String
  action : FixAction
  old_quantity : Option Nat
  new_quantity : Option Nat
  reason : IssueKind
  deriving Repr, DecidableEq

/-- A successful modification of the Cart Store performed by the saga's
auto-repair loop through the shopcart client. -/
inductive CartEffect where
  | deleteItem (cart_item_id : Option Nat)
  | updateItem (cart_item_id : Option Nat) (new_quantity : Option Nat)
  deriving Repr, DecidableEq

/-- Environment of the saga: the remote product service, the shopcart
client's delete/update calls (returning their success flag), the two DRF
serializers and the id the database assigns to a new order. -/
structure SagaEnv where
  getVariation : String → Option VariationData
  getProduct : String → Option ProductData
  deleteCartItem : Option Nat → Bool
  updateCartItem : Option Nat → Option Nat → Bool
  orderValid : Bool
  newOrderId : Nat
  itemValid : OrderItemData → Bool

/-- One iteration of the saga's validation loop (step 2 of
`create_order_from_shopcart`): `.error ()` is the immediate
400 return on a falsy `product_variation_id`; otherwise the line either
joins `validated_items` (`.inl`) or contributes a `stock_issues` entry
(`.inr`). -/
def validateLine (env : SagaEnv) (line : CartLine) : Except Unit (ValidatedItem ⊕ StockIssue) :=
  let quantity := line.quantity.getD 1
  match strTruthy line.product_variation_id with
  | none => .error ()
  | some vid =>
    match env.getVariation vid with
    | none => .ok (.inr ⟨line.id, vid, none, none, none, .not_found, .remove⟩)
    | some vd =>
      match strTruthy vd.product_id with
      | none => .ok (.inr ⟨line.id, vid, none, none, none, .invalid_data, .remove⟩)
      | some pid =>
        match env.getProduct pid with
        | none => .ok (.inr ⟨line.id, vid, none, none, none, .product_not_found, .remove⟩)
        | some pd =>
          if ¬ (pd.is_active.getD true) then
            .ok (.inr ⟨line.id, vid, some (pd.title.getD "Unknown"), none, none,
              .inactive, .remove⟩)
          else
            match strTruthy pd.shop_id with
            | none => .ok (.inr ⟨line.id, vid, none, none, none, .invalid_shop, .remove⟩)
            | some sid =>
              let available := vd.amount.getD 0
              if available = 0 then
                .ok (.inr ⟨line.id, vid, some (pd.title.getD "Unknown"), some quantity,
                  some 0, .out_of_stock, .remove⟩)
              else if available < quantity then
                .ok (.inr ⟨line.id, vid, some (pd.title.getD "Unknown"), some quantity,
                  some available, .insufficient_stock, .update⟩)
              else
                .ok (.inl ⟨vid, pid, sid, quantity, available⟩)

/-- The whole validation loop: collects `validated_items` and
`stock_issues` in cart order, aborting the entire request on the first
falsy `product_variation_id`. -/
def validateLines (env : SagaEnv) :
    List CartLine → Except Unit (List ValidatedItem × List StockIssue)
  | [] => .ok ([], [])
  | line :: rest =>
    match validateLine env line with
    | .error e => .error e
    | .ok r =>
      match validateLines env rest with
      | .error e => .error e
      | .ok vi =>
        match r with
        | .inl v => .ok (v :: vi.1, vi.2)
        | .inr i => .ok (vi.1, i :: vi.2)

/-- The `fixed_items` entry produced for a stock issue when the cart-store
call succeeds (for `update`, the reason is the hard-coded
`insufficient_stock` string of the source). -/
def fixedOfIssue (i : StockIssue) : FixedItem :=
  match i.action with
  | .remove => ⟨i.product_variation_id, i.product_title, .remove, none, none, i.issue⟩
  | .update => ⟨i.product_variation_id, i.product_title, .update, i.requested_quantity,
      i.available_stock, .insufficient_stock⟩

/-- The Cart Store modification attempted for a stock issue. -/
def effectOfIssue (i : StockIssue) : CartEffect :=
  match i.action with
  | .remove => .deleteItem i.cart_item_id
  | .update => .updateItem i.cart_item_id i.available_stock

/-- Step 3 of the saga, the auto-repair loop: for each issue call the
shopcart client (delete or quantity update); on success record the fixed
item and the cart-store effect, on client failure record nothing. -/
def autoFix (env : SagaEnv) : List StockIssue → List FixedItem × List CartEffect
  | [] => ([], [])
  | i :: rest =>
    let callOk : Bool :=
      match i.action with
      | .remove => env.deleteCartItem i.cart_item_id
      | .update => env.updateCartItem i.cart_item_id i.available_stock
    let r := autoFix env rest
    if callOk then (fixedOfIssue i :: r.1, effectOfIssue i :: r.2) else r

/-- The `order_item_data` dictionary built for a validated line: initial
status 1 (processing) and placeholder price 0. -/
def orderItemRow (orderId : Nat) (v : ValidatedItem) : OrderItemData :=
  ⟨orderId, v.variation_id, v.product_id, v.shop_id, v.quantity, 1, 0⟩

/-- Step 5 of the saga, the item-creation loop: each validated line is run
through `OrderItemSerializer`; the first invalid one aborts with `none`
(the source then deletes the order), otherwise the created rows and the
`event_items` payload are returned. -/
def createItems (env : SagaEnv) (orderId : Nat) :
    List ValidatedItem → Option (List OrderItemData × List EventItem)
  | [] => some ([], [])
  | v :: rest =>
    if env.itemValid (orderItemRow orderId v) then
      match createItems env orderId rest with
      | some r => some (orderItemRow orderId v :: r.1,
          EventItem.mk v.variation_id v.quantity :: r.2)
      | none => none
    else none

/-- The HTTP response of `create_order_from_shopcart`, one constructor per
return statement (404, 400 empty, 400 missing variation id, 409 conflict,
400 order serializer, 400 item serializer after rollback, 201 created). -/
inductive SagaResponse where
  | cartNotFound
  | emptyCart
  | missingVariationId
  | conflict (issues_found items_fixed : Nat) (details : List FixedItem) (cart_id : Option Nat)
  | orderInvalid
  | itemInvalid
  | created (order_id items_count total_quantity : Nat)
  deriving Repr, DecidableEq

/-- Observable outcome of one saga run: the response plus the net
database and remote-store effects (Order rows persisted, OrderItem rows
persisted after any compensating delete, successful cart-store
modifications, and inventory writes — the synchronous path performs
none). -/
structure SagaOutcome where
  response : SagaResponse
  ordersPersisted : Nat
  itemsPersisted : List OrderItemData
  cartEffects : List CartEffect
  stockWrites : List (String × Nat)
  deriving Repr, DecidableEq

/-- The full `create_order_from_shopcart` view over a fetched shopcart
(`none` models the 404 from the shopcart client). -/
def create_order_from_shopcart (env : SagaEnv) (shopcart : Option Shopcart) : SagaOutcome :=
  match shopcart with
  | none => ⟨.cartNotFound, 0, [], [], []⟩
  | some cart =>
    if cart.items.isEmpty then ⟨.emptyCart, 0, [], [], []⟩
    else
      match validateLines env cart.items with
      | .error _ => ⟨.missingVariationId, 0, [], [], []⟩
      | .ok vi =>
        if vi.2.isEmpty then
          if env.orderValid = false then ⟨.orderInvalid, 0, [], [], []⟩
          else
            match createItems env env.newOrderId vi.1 with
            | none => ⟨.itemInvalid, 0, [], [], []⟩
            | some re =>
              ⟨.created env.newOrderId re.2.length (re.2.map EventItem.quantity).sum,
                1, re.1, [], []⟩
        else
          let fixed := autoFix env vi.2
          ⟨.conflict vi.2.length fixed.1.length fixed.1 cart.id, 0, [], fixed.2, []⟩

lemma autoFix_all_ok (env : SagaEnv)
    (hdel : ∀ cid, env.deleteCartItem cid = true)
    (hupd : ∀ cid q, env.updateCartItem cid q = true) (issues : List StockIssue) :
    autoFix env issues = (issues.map fixedOfIssue, issues.map effectOfIssue) := by
  induction issues with
  | nil => rfl
  | cons i rest ih =>
    have hok : (match i.action with
        | .remove => env.deleteCartItem i.cart_item_id
        | .update => env.updateCartItem i.cart_item_id i.available_stock) = true := by
      cases i.action
      · exact hdel _
      · exact hupd _ _
    simp [autoFix, hok, ih]

lemma validateLines_nil_inv (env : SagaEnv) (validated : List ValidatedItem)
    (issues : List StockIssue)
    (hv : validateLines env [] = Except.ok (validated, issues)) :
    validated = [] ∧ issues = [] := by
  simp only [validateLines, Except.ok.injEq, Prod.mk.injEq] at hv
  exact ⟨hv.1.symm, hv.2.symm⟩

/-- C1: whenever at least one cart line fails validation, the saga creates
zero Order rows and zero OrderItem rows, applies every corrective action
(delete or quantity-clamp) to the Cart Store, and returns the 409
conflict response enumerating every correction. -/
theorem C1_conflict_auto_repair (env : SagaEnv) (cart : Shopcart)
    (validated : List ValidatedItem) (issues : List StockIssue)
    (hv : validateLines env cart.items = Except.ok (validated, issues))
    (hne : issues ≠ [])
    (hdel : ∀ cid, env.deleteCartItem cid = true)
    (hupd : ∀ cid q, env.updateCartItem cid q = true) :
    create_order_from_shopcart env (some cart) =
      ⟨.conflict issues.length issues.length (issues.map fixedOfIssue) cart.id,
        0, [], issues.map effectOfIssue, []⟩ := by
  have hcart : cart.items ≠ [] := by
    intro h
    rw [h] at hv
    exact hne (validateLines_nil_inv env validated issues hv).2
  have hie : cart.items.isEmpty = false := by
    cases hc : cart.items with
    | nil => exact absurd hc hcart
    | cons a l => rfl
  have hiss : issues.isEmpty = false := by
    cases hc : issues with
    | nil => exact absurd hc hne
    | cons a l => rfl
  simp [create_order_from_shopcart, hie, hv, hiss, autoFix_all_ok env hdel hupd issues]

lemma createItems_all_valid (env : SagaEnv) (orderId : Nat) (validated : List ValidatedItem)
    (h : ∀ v ∈ validated, env.itemValid (orderItemRow orderId v) = true) :
    createItems env orderId validated =
      some (validated.map (orderItemRow orderId),
        validated.map (fun v => EventItem.mk v.variation_id v.quantity)) := by
  induction validated with
  | nil => rfl
  | cons hd tl ih =>
    have hhd := h hd (List.mem_cons_self _ _)
    have htl := ih fun v hv => h v (List.mem_cons_of_mem _ hv)
    simp [createItems, hhd, htl]

lemma createItems_eq_none (env : SagaEnv) (orderId : Nat) (validated : List ValidatedItem)
    (h : ∃ v ∈ validated, env.itemValid (orderItemRow orderId v) = false) :
    createItems env orderId validated = none := by
  induction validated with
  | nil => simp at h
  | cons hd tl ih =>
    rcases h with ⟨v, hv, hval⟩
    rcases List.mem_cons.mp hv with h1 | h2
    · subst h1
      simp [createItems, hval]
    · cases hhd : env.itemValid (orderItemRow orderId hd) with
      | false => simp [createItems, hhd]
      | true => simp [createItems, hhd, ih ⟨v, h2, hval⟩]

/-- C6: if an `OrderItemSerializer` rejects one of the validated lines
partway through item creation, the already-created Order is deleted
(compensating action) and the serializer error is returned — no Order
with a partial set of OrderItems persists. -/
theorem C6_item_failure_compensating_delete (env : SagaEnv) (cart : Shopcart)
    (validated : List ValidatedItem)
    (hv : validateLines env cart.items = Except.ok (validated, []))
    (horder : env.orderValid = true)
    (hfail : ∃ v ∈ validated, env.itemValid (orderItemRow env.newOrderId v) = false) :
    create_order_from_shopcart env (some cart) = ⟨.itemInvalid, 0, [], [], []⟩ := by
  have hvne : validated ≠ [] := by
    rintro rfl
    simp at hfail
  have hcart : cart.items ≠ [] := by
    intro h
    rw [h] at hv
    exact hvne (validateLines_nil_inv env validated [] hv).1
  have hie : cart.items.isEmpty = false := by
    cases hc : cart.items with
    | nil => exact absurd hc hcart
    | cons a l => rfl
  simp [create_order_from_shopcart, hie, hv, horder,
    createItems_eq_none env env.newOrderId validated hfail]

/-- C7: when every cart line passes validation, the saga returns 201 with
one Order and one OrderItem per validated line (each with initial
processing status 1 and price 0), and performs no inventory mutation on
the synchronous path. -/
theorem C7_all_valid_creates_order (env : SagaEnv) (cart : Shopcart)
    (validated : List ValidatedItem)
    (hcart : cart.items ≠ [])
    (hv : validateLines env cart.items = Except.ok (validated, []))
    (horder : env.orderValid = true)
    (hitems : ∀ v ∈ validated, env.itemValid (orderItemRow env.newOrderId v) = true) :
    create_order_from_shopcart env (some cart) =
      ⟨.created env.newOrderId validated.length (validated.map ValidatedItem.quantity).sum,
        1, validated.map (orderItemRow env.newOrderId), [], []⟩ ∧
      ∀ r ∈ (create_order_from_shopcart env (some cart)).itemsPersisted,
        r.status = 1 ∧ r.price = 0 := by
  have hie : cart.items.isEmpty = false := by
    cases hc : cart.items with
    | nil => exact absurd hc hcart
    | cons a l => rfl
  have heq : create_order_from_shopcart env (some cart) =
      ⟨.created env.newOrderId validated.length (validated.map ValidatedItem.quantity).sum,
        1, validated.map (orderItemRow env.newOrderId), [], []⟩ := by
    simp only [create_order_from_shopcart, hie, hv, horder,
      createItems_all_valid env env.newOrderId validated hitems, List.map_map,
      Bool.false_eq_true, if_false, List.isEmpty_nil, List.length_map]
    rfl
  refine ⟨heq, ?_⟩
  rw [heq]
  intro r hr
  simp only [List.mem_map] at hr
  rcases hr with ⟨v, hv2, rfl⟩
  exact ⟨rfl, rfl⟩

lemma validateLines_error_of_missing (env : SagaEnv) (ls : List CartLine)
    (h : ∃ l ∈ ls, strTruthy l.product_variation_id = none) :
    validateLines env ls = Except.error () := by
  induction ls with
  | nil => simp at h
  | cons hd tl ih =>
    rcases h with ⟨l, hl, hmiss⟩
    rcases List.mem_cons.mp hl with h1 | h2
    · subst h1
      simp [validateLines, validateLine, hmiss]
    · cases hline : validateLine env hd with
      | error e => simp [validateLines, hline]
      | ok r => simp [validateLines, hline, ih ⟨l, h2, hmiss⟩]

/-- C10: a cart containing any item without a truthy
`product_variation_id` makes the saga return the 400
`Missing product_variation_id` response from inside the validation loop:
no Order, no OrderItems, and no corrective cart action at all — not even
for stock issues already detected on earlier lines. -/
theorem C10_missing_variation_id_aborts (env : SagaEnv) (cart : Shopcart)
    (h : ∃ l ∈ cart.items, strTruthy l.product_variation_id = none) :
    create_order_from_shopcart env (some cart) = ⟨.missingVariationId, 0, [], [], []⟩ := by
  have hcart : cart.items ≠ [] := by
    rintro hnil
    rw [hnil] at h
    simp at h
  have hie : cart.items.isEmpty = false := by
    cases hc : cart.items with
    | nil => exact absurd hc hcart
    | cons a l => rfl
  simp [create_order_from_shopcart, hie, validateLines_error_of_missing env cart.items h]

/-- Sample saga environment: variations `v1` (stock 10) and `v2` (stock 5)
on products `p1`/`p2` of active shop `s1`; every serializer and every
cart-store call succeeds; the database assigns order id 7. -/
def envA : SagaEnv where
  getVariation := fun vid =>
    if vid = "v1" then some ⟨some "p1", some 10⟩
    else if vid = "v2" then some ⟨some "p2", some 5⟩
    else none
  getProduct := fun pid =>
    if pid = "p1" ∨ pid = "p2" then some ⟨some "s1", some true, some "T"⟩ else none
  deleteCartItem := fun _ => true
  updateCartItem := fun _ _ => true
  orderValid := true
  newOrderId := 7
  itemValid := fun _ => true

/-- Sample saga environment identical to `envA` except that the order-item
serializer rejects every payload. -/
def envB : SagaEnv where
  getVariation := fun vid =>
    if vid = "v1" then some ⟨some "p1", some 10⟩ else none
  getProduct := fun pid =>
    if pid = "p1" then some ⟨some "s1", some true, some "T"⟩ else none
  deleteCartItem := fun _ => true
  updateCartItem := fun _ _ => true
  orderValid := true
  newOrderId := 7
  itemValid := fun _ => false

/-- C1 witness: a cart whose first line requests 20 of `v1` (stock 10,
clamped) and whose second line names an unknown variation (removed): the
saga performs both cart repairs and answers 409 with both corrections,
creating nothing. -/
theorem C1_conflict_auto_repair_witness :
    create_order_from_shopcart envA (some (Shopcart.mk (some 1)
        [CartLine.mk (some 11) (some "v1") (some 20),
          CartLine.mk (some 12) (some "vX") (some 1)])) =
      ⟨.conflict 2 2
          [FixedItem.mk "v1" (some "T") .update (some 20) (some 10) .insufficient_stock,
            FixedItem.mk "vX" none .remove none none .not_found] (some 1),
        0, [],
        [CartEffect.updateItem (some 11) (some 10), CartEffect.deleteItem (some 12)], []⟩ :=
  C1_conflict_auto_repair envA _ []
    [StockIssue.mk (some 11) "v1" (some "T") (some 20) (some 10) .insufficient_stock .update,
      StockIssue.mk (some 12) "vX" none none none .not_found .remove]
    rfl (by decide) (fun _ => rfl) (fun _ _ => rfl)

/-- C6 witness: one fully valid cart line, but the order-item serializer
rejects the payload — the saga ends with the item-error response and no
persisted rows. -/
theorem C6_item_failure_compensating_delete_witness :
    create_order_from_shopcart envB (some (Shopcart.mk (some 1)
        [CartLine.mk (some 11) (some "v1") (some 3)])) =
      ⟨.itemInvalid, 0, [], [], []⟩ :=
  C6_item_failure_compensating_delete envB _ [ValidatedItem.mk "v1" "p1" "s1" 3 10]
    rfl rfl (by decide)

/-- C7 witness: the spec's Scenario A — two valid lines (stock 10 and 5,
requesting 3 and 2) yield a 201 with order id 7, two items carrying
status 1 and price 0, and no inventory writes. -/
theorem C7_all_valid_creates_order_witness :
    (create_order_from_shopcart envA (some (Shopcart.mk (some 1)
        [CartLine.mk (some 11) (some "v1") (some 3),
          CartLine.mk (some 12) (some "v2") (some 2)])) =
      ⟨.created 7 2 5, 1,
        [OrderItemData.mk 7 "v1" "p1" "s1" 3 1 0, OrderItemData.mk 7 "v2" "p2" "s1" 2 1 0],
        [], []⟩) ∧
      ∀ r ∈ (create_order_from_shopcart envA (some (Shopcart.mk (some 1)
          [CartLine.mk (some 11) (some "v1") (some 3),
            CartLine.mk (some 12) (some "v2") (some 2)]))).itemsPersisted,
        r.status = 1 ∧ r.price = 0 :=
  C7_all_valid_creates_order envA _
    [ValidatedItem.mk "v1" "p1" "s1" 3 10, ValidatedItem.mk "v2" "p2" "s1" 2 5]
    (by decide) rfl rfl (fun _ _ => rfl)

/-- C10 witness: a cart whose first line already has a stock issue
(requesting 20 of `v1`) and whose second line lacks a
`product_variation_id`: the saga answers the 400 missing-id response with
no cart repair at all. -/
theorem C10_missing_variation_id_aborts_witness :
    create_order_from_shopcart envA (some (Shopcart.mk (some 1)
        [CartLine.mk (some 11) (some "v1") (some 20),
          CartLine.mk (some 12) none (some 1)])) =
      ⟨.missingVariationId, 0, [], [], []⟩ :=
  C10_missing_variation_id_aborts envA _ (by decide)

/-! ## Order service: order-item status workflow (`update_order_item_status`) -/

/-- An `OrderItem` row of one order as read by the status-update view.
Status codes are the integer enum of the model (1 = the initial
processing state, 3 = the terminal approved state). -/
structure OrderItemRec where
  id : Nat
  product_variation : String
  product_id : Option String
  shop_id : Option String
  quantity : Nat
  price : Nat
  status : Nat
  deriving Repr, DecidableEq

/-- Modelled from the spec: `Order.check_and_approve` (the `orders/models.py`
file is not part of the sources; only its caller is).  Per the spec,
`Order.is_approved` becomes true iff every child OrderItem is in the
terminal approved status (code 3) — a plain AND-aggregation. -/
def check_and_approve (items : List OrderItemRec) : Bool :=
  items.all fun i => i.status == 3

/-- A Python runtime error surfaced by the embedding. -/
inductive PyError where
  | unboundLocalUserId
  deriving Repr, DecidableEq

/-- The HTTP outcome of `update_order_item_status`: 404, 400, 404 for a
missing shop id, 403, or 200 carrying the saved rows of the order and the
freshly recomputed `Order.is_approved`. -/
inductive UpdateResult where
  | notFound
  | invalidStatus
  | shopIdNotFound
  | forbidden
  | ok (items : List OrderItemRec) (is_approved : Bool)
  deriving Repr, DecidableEq

/-- The `update_order_item_status` view over the target order's item rows:
find the item, validate the requested status against the model's choices,
authorize against the caller's owned shops, save the transition and
recompute the parent order's approval.  When the stored `shop_id` or
`product_id` is falsy, the source enters its network-fallback branch,
whose first remote call evaluates the local variable `user_id` — which is
assigned only later in the function — so Python raises
`UnboundLocalError` there; the embedding surfaces this as
`PyError.unboundLocalUserId`. -/
def update_order_item_status (choices : List Nat) (userShopIds : List String)
    (items : List OrderItemRec) (pk : Nat) (newStatus : Nat) :
    Except PyError UpdateResult :=
  match items.find? fun i => i.id == pk with
  | none => .ok .notFound
  | some item =>
    if newStatus ∉ choices then .ok .invalidStatus
    else
      match strTruthy item.shop_id, strTruthy item.product_id with
      | some sid, some _ =>
        if sid ∉ userShopIds then .ok .forbidden
        else
          let saved := items.map fun i => if i.id == pk then { i with status := newStatus } else i
          .ok (.ok saved (check_and_approve saved))
      | _, _ => .error .unboundLocalUserId

/-- C5 (spec-modelled): after any successful status transition through
`update_order_item_status`, the parent order's `is_approved` is true iff
every child OrderItem carries the terminal approved status 3. -/
theorem C5_is_approved_iff_all_approved (choices : List Nat) (userShopIds : List String)
    (items : List OrderItemRec) (pk : Nat) (newStatus : Nat)
    (saved : List OrderItemRec) (approved : Bool)
    (h : update_order_item_status choices userShopIds items pk newStatus =
      Except.ok (.ok saved approved)) :
    approved = true ↔ ∀ i ∈ saved, i.status = 3 := by
  unfold update_order_item_status at h
  split at h
  · exact absurd h (by simp)
  · split at h
    · exact absurd h (by simp)
    · split at h
      · split at h
        · exact absurd h (by simp)
        · simp only [Except.ok.injEq, UpdateResult.ok.injEq] at h
          rw [← h.2, ← h.1]
          simp [check_and_approve, List.all_eq_true]
      · exact absurd h (by simp)

/-- C5 witness: transitioning item 8 of a two-item order to status 3 while
item 9 already carries status 3 recomputes `is_approved = true`, matching
the AND over the saved rows. -/
theorem C5_is_approved_iff_all_approved_witness :
    (true = true ↔ ∀ i ∈
      [OrderItemRec.mk 8 "v1" (some "p1") (some "s1") 2 0 3,
        OrderItemRec.mk 9 "v2" (some "p2") (some "s1") 1 0 3], i.status = 3) :=
  C5_is_approved_iff_all_approved [1, 2, 3] ["s1"]
    [OrderItemRec.mk 8 "v1" (some "p1") (some "s1") 2 0 1,
      OrderItemRec.mk 9 "v2" (some "p2") (some "s1") 1 0 3] 8 3 _ _ rfl

/-- C9: evaluating the status-update view on an order item whose stored
`shop_id` is missing shows the fallback path raising `UnboundLocalError`
(`user_id` is read by the fallback's first remote call but assigned only
later in the function), instead of re-deriving the ids and completing the
authorization check as the spec describes. -/
theorem C9_fallback_raises_unbound_local :
    update_order_item_status [1, 2, 3] ["s1"]
        [OrderItemRec.mk 7 "v1" (some "p1") none 2 0 1] 7 3 =
      Except.error PyError.unboundLocalUserId := by
  rfl

end Micro
